import Mathlib

/-!
Verification of the authentication and authorization core of the Platziflix
course-catalog backend (`Backend/app/core/auth.py` together with the settings
of `Backend/app/core/config.py`).

The embedding is shallow.  JWT tokens are modelled as an inductive type: a
token is either a malformed string or a signed payload carrying the secret
and the algorithm tag it was produced with; `jwtDecode` models the behaviour
of `jwt.decode(token, key, algorithms=[alg])` from PyJWT: a wrong algorithm,
a wrong secret or a malformed token raise `InvalidTokenError`, an `exp` claim
that is not in the future raises `ExpiredSignatureError`, otherwise the
payload is returned.  Pydantic validation of the `TokenData` model is
modelled by `TokenData.ofPayload`: the `user_id` field accepts an integer
JSON value and — pydantic v2's default lax mode — coerces a numeric string
to its integer; null, an absent key or a non-numeric string is a validation
failure.  The `email` field must be absent, null or a string; any other
shape is a validation failure.  Time is an explicit integer parameter
(seconds); machine clocks and real concurrency are outside the model.
Python exceptions surface as `Except`/`Option` results: a Lean function that
returns `Option` or a pure pair can, by construction, never raise.
-/

/-- JSON-like values that can sit in a JWT payload field. -/
inductive JVal where
  | jint (n : Int)
  | jstr (s : String)
  | jnull
deriving DecidableEq, Repr

/-- The JWT settings of `app/core/config.py` (class `Settings`).  Only the
fields the auth module reads are kept. -/
structure Settings where
  jwt_secret_key : String
  jwt_algorithm : String
  jwt_access_token_expire_minutes : Int
deriving DecidableEq, Repr

/-- The module-level `settings` singleton with the defaults of `config.py`. -/
def settings : Settings :=
  { jwt_secret_key := "your-secret-key-change-in-production"
    jwt_algorithm := "HS256"
    jwt_access_token_expire_minutes := 30 }

/-- A decoded JWT payload dictionary: the three keys the auth module reads.
`user_id` and `email` are `payload.get(...)` results, so each is an optional
JSON value; `exp` is kept as an optional integer timestamp (PyJWT requires a
numeric `exp`, and every token this code issues has one). -/
structure Payload where
  user_id : Option JVal
  email : Option JVal
  exp : Option Int
deriving DecidableEq, Repr

/-- A JWT on the wire: either a string that does not parse as a JWT at all,
or a well-formed token, i.e. a payload signed with a secret under an
algorithm tag. -/
inductive Token where
  | malformed (raw : String)
  | signed (payload : Payload) (secret : String) (alg : String)
deriving DecidableEq, Repr

/-- The PyJWT exceptions `decode_access_token` catches by name.
`invalidToken` stands for `InvalidTokenError` and all its subclasses other
than `ExpiredSignatureError` (malformed token, signature mismatch,
disallowed algorithm). -/
inductive JwtError where
  | expiredSignature
  | invalidToken
deriving DecidableEq, Repr

/-- Model of `jwt.encode(payload, secret, algorithm=alg)`. -/
def jwtEncode (payload : Payload) (secret : String) (alg : String) : Token :=
  .signed payload secret alg

/-- Model of `jwt.decode(token, key, algorithms=[alg])`: fails with
`InvalidTokenError` on a malformed token, an algorithm outside the allowed
list or a signature made with a different secret; fails with
`ExpiredSignatureError` when the `exp` claim is not strictly in the future;
otherwise returns the payload. -/
def jwtDecode (token : Token) (key : String) (alg : String) (now : Int) :
    Except JwtError Payload :=
  match token with
  | .malformed _ => .error .invalidToken
  | .signed p sec a =>
    if a = alg then
      if sec = key then
        match p.exp with
        | some e => if e ≤ now then .error .expiredSignature else .ok p
        | none => .ok p
      else .error .invalidToken
    else .error .invalidToken

/-- The pydantic model `TokenData` of `auth.py`: after validation `user_id`
is always an integer (the field is declared `user_id: int`), `email` and
`exp` are optional. -/
structure TokenData where
  user_id : Int
  email : Option String
  exp : Option Int
deriving DecidableEq, Repr

/-- The pydantic model `User` of `auth.py`. -/
structure User where
  id : Int
  email : Option String
deriving DecidableEq, Repr

/-- Parse a run of decimal digits, accumulating into `acc`; fails on the
first non-digit character. -/
def parseDigits : List Char → Nat → Option Nat
  | [], acc => some acc
  | c :: cs, acc =>
    if c.isDigit then parseDigits cs (acc * 10 + (c.toNat - 48)) else none

/-- Model of pydantic-core's lax conversion of a string to an integer: an
optional leading minus sign followed by one or more decimal digits; any
other string fails. -/
def strAsInt? (s : String) : Option Int :=
  match s.data with
  | [] => none
  | c :: cs =>
    if c = '-' then
      match cs with
      | [] => none
      | _ => (parseDigits cs 0).map fun n => -(n : Int)
    else (parseDigits (c :: cs) 0).map fun n => (n : Int)

/-- Pydantic validation of a required `int` field fed with the result of
`payload.get(...)`: an integer JSON value is accepted, and — pydantic v2
lax mode — a string that parses as an integer is coerced to that integer.
An absent key, null, or a non-numeric string is a validation error. -/
def validateInt : Option JVal → Option Int
  | some (.jint n) => some n
  | some (.jstr s) => strAsInt? s
  | _ => none

/-- Pydantic validation of an `Optional[str]` field: absent and null both
give `None`, a string gives the string, anything else is a validation
error. -/
def validateOptionalStr : Option JVal → Option (Option String)
  | none => some none
  | some .jnull => some none
  | some (.jstr s) => some (some s)
  | some (.jint _) => none

/-- Construction of `TokenData(user_id=payload.get("user_id"), ...)`:
`some` on success, `none` when pydantic raises a `ValidationError`. -/
def TokenData.ofPayload (p : Payload) : Option TokenData :=
  match validateInt p.user_id, validateOptionalStr p.email with
  | some uid, some em => some ⟨uid, em, p.exp⟩
  | _, _ => none

/-- `create_access_token(user_id, email)` of `auth.py`.  The issuance time
`now` (the source's `datetime.utcnow()`) is passed explicitly; the ttl is
`settings.jwt_access_token_expire_minutes` converted to seconds. -/
def create_access_token (user_id : Int) (email : Option String) (now : Int) :
    Token :=
  let expire := now + settings.jwt_access_token_expire_minutes * 60
  jwtEncode
    { user_id := some (.jint user_id)
      email :=
        match email with
        | some s => some (.jstr s)
        | none => some .jnull
      exp := some expire }
    settings.jwt_secret_key settings.jwt_algorithm

/-- `decode_access_token(token)` of `auth.py`: try `jwt.decode` and build a
`TokenData`; every exception (`ExpiredSignatureError`, `InvalidTokenError`,
and the catch-all `except Exception` that absorbs pydantic validation
errors) returns `None`.  As a total Lean function it can never raise. -/
def decode_access_token (token : Token) (now : Int) : Option TokenData :=
  match jwtDecode token settings.jwt_secret_key settings.jwt_algorithm now with
  | .ok payload => TokenData.ofPayload payload
  | .error _ => none

/-- `fastapi.HTTPException` restricted to the fields this module sets. -/
structure HTTPException where
  status_code : Nat
  detail : String
deriving DecidableEq, Repr

/-- `get_current_user(credentials)` of `auth.py`.  `credentials` is `none`
when the request carries no Authorization header (`HTTPBearer` with
`auto_error=False` yields `None`), otherwise the bearer token.  The source's
`if token_data.user_id is None` guard is unreachable — pydantic validation
guarantees `user_id` is an `int` — so it has no counterpart here. -/
def get_current_user (credentials : Option Token) (now : Int) :
    Except HTTPException User :=
  match credentials with
  | none => .error ⟨401, "Authentication required"⟩
  | some token =>
    match decode_access_token token now with
    | none => .error ⟨401, "Could not validate credentials"⟩
    | some token_data => .ok ⟨token_data.user_id, token_data.email⟩

/-- `get_optional_current_user(credentials)` of `auth.py`: same resolution
as `get_current_user` but every failure becomes `None` instead of an
exception.  The source's `token_data.user_id is None` disjunct is
unreachable for the same reason as above. -/
def get_optional_current_user (credentials : Option Token) (now : Int) :
    Option User :=
  match credentials with
  | none => none
  | some token =>
    match decode_access_token token now with
    | none => none
    | some token_data => some ⟨token_data.user_id, token_data.email⟩

/-- A recorded invocation of a Course/Rating service mutation method, with
its positional arguments. -/
structure MutationCall where
  method : String
  args : List Int
deriving DecidableEq, Repr

/-- Modelled from the spec: the update-rating endpoint handler (the rating
router of `app/main.py` is not under `src/`; only its tests are).  Per the
spec, after authentication the handler compares the caller id with the owner
id from the path; on mismatch it rejects with 403 and the action-specific
message the tests assert, without invoking the service; otherwise it calls
`update_course_rating(course_id, user_id, rating)`.  Persisted state is the
list of service mutation calls performed so far. -/
def update_course_rating_endpoint (caller : User)
    (course_id user_id rating : Int) (st : List MutationCall) :
    Except HTTPException Unit × List MutationCall :=
  if caller.id ≠ user_id then
    (.error ⟨403, "Cannot update another user\x27s rating"⟩, st)
  else
    (.ok (), st ++ [⟨"update_course_rating", [course_id, user_id, rating]⟩])

/-- Modelled from the spec: the delete-rating endpoint handler, analogous to
`update_course_rating_endpoint` (handler code not under `src/`). -/
def delete_course_rating_endpoint (caller : User)
    (course_id user_id : Int) (st : List MutationCall) :
    Except HTTPException Unit × List MutationCall :=
  if caller.id ≠ user_id then
    (.error ⟨403, "Cannot delete another user\x27s rating"⟩, st)
  else
    (.ok (), st ++ [⟨"delete_course_rating", [course_id, user_id]⟩])

/-! Helper lemmas shared by several theorems below. -/

/-- If the payload's `user_id` fails `int` validation, decoding the signed
token yields no claim, whatever the secret, algorithm and expiry. -/
theorem decode_none_of_user_id_invalid (p : Payload) (sec alg : String)
    (now : Int) (hv : validateInt p.user_id = none) :
    decode_access_token (.signed p sec alg) now = none := by
  by_cases ha : alg = settings.jwt_algorithm
  · by_cases hs : sec = settings.jwt_secret_key
    · cases hexp : p.exp with
      | some e =>
        by_cases he : e ≤ now
        · simp [decode_access_token, jwtDecode, ha, hs, hexp, he]
        · simp [decode_access_token, jwtDecode, ha, hs, hexp, he,
            TokenData.ofPayload, hv]
      | none =>
        simp [decode_access_token, jwtDecode, ha, hs, hexp,
          TokenData.ofPayload, hv]
    · simp [decode_access_token, jwtDecode, ha, hs]
  · simp [decode_access_token, jwtDecode, ha]

/-- A token whose claim carries `user_id = 0`, signed with the configured
secret and algorithm and expiring at time 1000. -/
def c1_token : Token :=
  .signed ⟨some (.jint 0), some .jnull, some 1000⟩
    settings.jwt_secret_key settings.jwt_algorithm

/-- C1: counterexample.  A validly signed, unexpired token whose claim has
the non-positive `user_id = 0` decodes to a claim, and `get_current_user`
returns an Authenticated Caller built from it instead of rejecting with a
401 error: the guard never checks the sign of `user_id`. -/
theorem C1_counterexample :
    decode_access_token c1_token 0 = some ⟨0, none, some 1000⟩ ∧
    get_current_user (some c1_token) 0 = .ok ⟨0, none⟩ := by
  constructor <;> rfl

/-- C1 (amended): for every request credential whose token's signed payload
has `user_id` absent — so that no claim is decoded — `get_current_user`
rejects with a 401 "Could not validate credentials" failure and never
returns an Authenticated Caller; a decoded claim with a non-positive
`user_id` is, however, not rejected (the guard never checks the sign). -/
theorem C1_absent_user_id_rejected (p : Payload) (sec alg : String)
    (now : Int) (h : p.user_id = none) :
    get_current_user (some (.signed p sec alg)) now =
      .error ⟨401, "Could not validate credentials"⟩ := by
  have hdec := decode_none_of_user_id_invalid p sec alg now (by rw [h]; rfl)
  simp [get_current_user, hdec]

/-- C1 witness: a signed token whose payload lacks the `user_id` key is
rejected with 401 "Could not validate credentials". -/
theorem C1_witness :
    (Payload.mk none (some .jnull) (some 1000)).user_id = none ∧
    get_current_user (some (.signed ⟨none, some .jnull, some 1000⟩
      settings.jwt_secret_key settings.jwt_algorithm)) 0 =
      .error ⟨401, "Could not validate credentials"⟩ :=
  ⟨rfl, C1_absent_user_id_rejected _ _ _ 0 rfl⟩

/-- C2: on an update or delete rating request where the caller's id differs
from the owner id in the path, the handler rejects with 403 and the
action-specific message, and the list of service mutation calls — the
persisted state — is unchanged: the service method is never invoked. -/
theorem C2_owner_mismatch_forbidden (caller : User)
    (course_id user_id rating : Int) (st : List MutationCall)
    (h : caller.id ≠ user_id) :
    update_course_rating_endpoint caller course_id user_id rating st =
      (.error ⟨403, "Cannot update another user\x27s rating"⟩, st) ∧
    delete_course_rating_endpoint caller course_id user_id st =
      (.error ⟨403, "Cannot delete another user\x27s rating"⟩, st) := by
  constructor <;>
    simp [update_course_rating_endpoint, delete_course_rating_endpoint, h]

/-- C2 witness: user 42 attempting to update or delete user 99's rating is
rejected with 403 and no service call is recorded. -/
theorem C2_witness :
    (User.mk 42 (some "test@example.com")).id ≠ 99 ∧
    update_course_rating_endpoint ⟨42, some "test@example.com"⟩ 1 99 3 [] =
      (.error ⟨403, "Cannot update another user\x27s rating"⟩, []) ∧
    delete_course_rating_endpoint ⟨42, some "test@example.com"⟩ 1 99 [] =
      (.error ⟨403, "Cannot delete another user\x27s rating"⟩, []) :=
  ⟨by decide,
   (C2_owner_mismatch_forbidden ⟨42, some "test@example.com"⟩ 1 99 3 []
     (by decide)).1,
   (C2_owner_mismatch_forbidden ⟨42, some "test@example.com"⟩ 1 99 3 []
     (by decide)).2⟩

/-- C3: round-trip identity.  A token created for `user_id > 0` and an
optional email, decoded under the same secret and algorithm at any time
strictly before the ttl has elapsed, yields a claim with the same `user_id`
and `email` (and the `exp` the encoder set). -/
theorem C3_roundtrip (user_id : Int) (email : Option String)
    (issued now : Int) (hpos : 0 < user_id)
    (hfresh : now < issued + settings.jwt_access_token_expire_minutes * 60) :
    decode_access_token (create_access_token user_id email issued) now =
      some ⟨user_id, email,
        some (issued + settings.jwt_access_token_expire_minutes * 60)⟩ := by
  have hnot : ¬ issued + settings.jwt_access_token_expire_minutes * 60 ≤ now :=
    not_le.mpr hfresh
  cases email with
  | none =>
    simp [create_access_token, jwtEncode, decode_access_token, jwtDecode,
      TokenData.ofPayload, validateInt, validateOptionalStr, hnot]
  | some s =>
    simp [create_access_token, jwtEncode, decode_access_token, jwtDecode,
      TokenData.ofPayload, validateInt, validateOptionalStr, hnot]

/-- C3 witness: encode for user 42 at time 0, decode at time 1799, one
second before the 30-minute ttl elapses. -/
theorem C3_witness :
    (0 : Int) < 42 ∧
    (1799 : Int) < 0 + settings.jwt_access_token_expire_minutes * 60 ∧
    decode_access_token
        (create_access_token 42 (some "test@example.com") 0) 1799 =
      some ⟨42, some "test@example.com",
        some (0 + settings.jwt_access_token_expire_minutes * 60)⟩ :=
  ⟨by decide, by decide,
   C3_roundtrip 42 (some "test@example.com") 0 1799 (by decide) (by decide)⟩

/-- C4: every decode failure mode yields the same sentinel `none`: malformed
tokens, tokens signed with a different secret, tokens using a different
algorithm, and expired tokens are mutually indistinguishable to the caller.
`decode_access_token` is a total function into `Option TokenData`, so it can
never raise. -/
theorem C4_failures_collapse (now : Int) :
    (∀ s, decode_access_token (.malformed s) now = none) ∧
    (∀ p sec alg, sec ≠ settings.jwt_secret_key ∨ alg ≠ settings.jwt_algorithm →
      decode_access_token (.signed p sec alg) now = none) ∧
    (∀ p sec alg e, p.exp = some e → e ≤ now →
      decode_access_token (.signed p sec alg) now = none) := by
  refine ⟨fun _ => rfl, ?_, ?_⟩
  · rintro p sec alg (hs | ha)
    · by_cases ha : alg = settings.jwt_algorithm
      · simp [decode_access_token, jwtDecode, ha, hs]
      · simp [decode_access_token, jwtDecode, ha]
    · simp [decode_access_token, jwtDecode, ha]
  · intro p sec alg e hexp he
    by_cases ha : alg = settings.jwt_algorithm
    · by_cases hs : sec = settings.jwt_secret_key
      · simp [decode_access_token, jwtDecode, ha, hs, hexp, he]
      · simp [decode_access_token, jwtDecode, ha, hs]
    · simp [decode_access_token, jwtDecode, ha]

/-- C4 witness: a garbage string, a token signed with another secret, a
token under another algorithm, and an expired token all decode to `none`. -/
theorem C4_witness :
    decode_access_token (.malformed "garbage") 0 = none ∧
    decode_access_token
      (.signed ⟨some (.jint 1), some .jnull, some 10⟩ "other-secret" "HS256")
      0 = none ∧
    decode_access_token
      (.signed ⟨some (.jint 1), some .jnull, some 10⟩
        settings.jwt_secret_key "HS512") 0 = none ∧
    decode_access_token
      (.signed ⟨some (.jint 1), some .jnull, some 0⟩
        settings.jwt_secret_key settings.jwt_algorithm) 0 = none :=
  ⟨(C4_failures_collapse 0).1 "garbage",
   (C4_failures_collapse 0).2.1 _ _ _ (Or.inl (by decide)),
   (C4_failures_collapse 0).2.1 _ _ _ (Or.inr (by decide)),
   (C4_failures_collapse 0).2.2 _ _ _ 0 rfl (by decide)⟩

/-- C5: a token whose `exp` timestamp is strictly in the past at decode time
yields no claim, for every secret and algorithm — in particular also when
the signature is otherwise valid. -/
theorem C5_expired_token_yields_none (p : Payload) (sec alg : String)
    (e now : Int) (hexp : p.exp = some e) (hpast : e < now) :
    decode_access_token (.signed p sec alg) now = none := by
  by_cases ha : alg = settings.jwt_algorithm
  · by_cases hs : sec = settings.jwt_secret_key
    · simp [decode_access_token, jwtDecode, ha, hs, hexp, le_of_lt hpast]
    · simp [decode_access_token, jwtDecode, ha, hs]
  · simp [decode_access_token, jwtDecode, ha]

/-- C5 witness: a token for user 7, correctly signed, expired at time 5, is
rejected when decoded at time 10. -/
theorem C5_witness :
    (Payload.mk (some (.jint 7)) (some .jnull) (some 5)).exp = some 5 ∧
    (5 : Int) < 10 ∧
    decode_access_token
      (.signed ⟨some (.jint 7), some .jnull, some 5⟩
        settings.jwt_secret_key settings.jwt_algorithm) 10 = none :=
  ⟨rfl, by decide,
   C5_expired_token_yields_none ⟨some (.jint 7), some .jnull, some 5⟩
     settings.jwt_secret_key settings.jwt_algorithm 5 10 rfl (by decide)⟩

/-- C6: a request with no Authorization credential is rejected by
`get_current_user` with 401 "Authentication required"; a supplied but
undecodable token is rejected with 401 "Could not validate credentials" —
the same status class 401, but a distinct message. -/
theorem C6_missing_credential_distinct (now : Int) :
    get_current_user none now = .error ⟨401, "Authentication required"⟩ ∧
    (∀ tok, decode_access_token tok now = none →
      get_current_user (some tok) now =
        .error ⟨401, "Could not validate credentials"⟩) ∧
    "Authentication required" ≠ "Could not validate credentials" := by
  refine ⟨rfl, ?_, by decide⟩
  intro tok hdec
  simp [get_current_user, hdec]

/-- C6 witness: a bare request gets "Authentication required"; a malformed
bearer token gets "Could not validate credentials"; both carry status 401. -/
theorem C6_witness :
    get_current_user none 0 = .error ⟨401, "Authentication required"⟩ ∧
    decode_access_token (.malformed "x") 0 = none ∧
    get_current_user (some (.malformed "x")) 0 =
      .error ⟨401, "Could not validate credentials"⟩ :=
  ⟨(C6_missing_credential_distinct 0).1, rfl,
   (C6_missing_credential_distinct 0).2.1 (.malformed "x") rfl⟩

/-- C7: the optional guard has no hard failure path.  It is a total function
into `Option User`, so it never raises; an absent credential, an undecodable
token (which subsumes a payload with missing `user_id`, absorbed at decode)
each yield `none`, and a token that decodes to a claim yields the
corresponding `User`. -/
theorem C7_optional_guard_never_fails (credentials : Option Token)
    (now : Int) :
    (credentials = none → get_optional_current_user credentials now = none) ∧
    (∀ tok, credentials = some tok → decode_access_token tok now = none →
      get_optional_current_user credentials now = none) ∧
    (∀ tok td, credentials = some tok → decode_access_token tok now = some td →
      get_optional_current_user credentials now =
        some ⟨td.user_id, td.email⟩) := by
  refine ⟨?_, ?_, ?_⟩
  · rintro rfl; rfl
  · rintro tok rfl hdec
    simp [get_optional_current_user, hdec]
  · rintro tok td rfl hdec
    simp [get_optional_current_user, hdec]

/-- C7 witness: no credential and a malformed token both give "no caller";
a valid token for user 42 gives the corresponding User. -/
theorem C7_witness :
    get_optional_current_user none 0 = none ∧
    get_optional_current_user (some (.malformed "bad")) 0 = none ∧
    get_optional_current_user (some (create_access_token 42 none 0)) 0 =
      some ⟨42, none⟩ :=
  ⟨(C7_optional_guard_never_fails none 0).1 rfl,
   (C7_optional_guard_never_fails (some (.malformed "bad")) 0).2.1
     (.malformed "bad") rfl rfl,
   (C7_optional_guard_never_fails (some (create_access_token 42 none 0)) 0).2.2
     (create_access_token 42 none 0) ⟨42, none, some 1800⟩ rfl rfl⟩

/-- C8: `create_access_token` is a total function — encoding has no error
conditions — and the claim it signs carries the issuer's `user_id`, the
email, and `expires_at` equal to the issuance time plus the configured ttl
of `settings.jwt_access_token_expire_minutes` minutes. -/
theorem C8_encode_always_succeeds (user_id : Int) (email : Option String)
    (now : Int) :
    ∃ p : Payload,
      create_access_token user_id email now =
        Token.signed p settings.jwt_secret_key settings.jwt_algorithm ∧
      p.user_id = some (.jint user_id) ∧
      p.exp = some (now + settings.jwt_access_token_expire_minutes * 60) :=
  ⟨_, rfl, rfl, rfl⟩

/-- C10: the mandatory and optional guards agree on every input.
`get_optional_current_user` returns a user exactly when `get_current_user`
returns that same user, and returns `none` exactly when `get_current_user`
rejects with a 401 error: the optional guard is the mandatory guard with
"error becomes None". -/
theorem C10_guards_agree (credentials : Option Token) (now : Int) :
    (∀ u : User, get_optional_current_user credentials now = some u ↔
      get_current_user credentials now = .ok u) ∧
    (get_optional_current_user credentials now = none ↔
      ∃ msg, get_current_user credentials now = .error ⟨401, msg⟩) := by
  cases credentials with
  | none =>
    refine ⟨fun u => ?_, ?_⟩
    · simp [get_optional_current_user, get_current_user]
    · constructor
      · intro _
        exact ⟨"Authentication required", rfl⟩
      · intro _
        rfl
  | some tok =>
    cases hdec : decode_access_token tok now with
    | none =>
      refine ⟨fun u => ?_, ?_⟩
      · simp [get_optional_current_user, get_current_user, hdec]
      · constructor
        · intro _
          exact ⟨"Could not validate credentials",
            by simp [get_current_user, hdec]⟩
        · intro _
          simp [get_optional_current_user, hdec]
    | some td =>
      refine ⟨fun u => ?_, ?_⟩
      · simp [get_optional_current_user, get_current_user, hdec]
      · simp [get_optional_current_user, get_current_user, hdec]

/-- C10 witness: on a malformed token the mandatory guard rejects with a
401 error and the optional guard accordingly returns "no caller". -/
theorem C10_witness :
    get_current_user (some (.malformed "bad")) 0 =
      .error ⟨401, "Could not validate credentials"⟩ ∧
    get_optional_current_user (some (.malformed "bad")) 0 = none :=
  ⟨rfl,
   (C10_guards_agree (some (.malformed "bad")) 0).2.mpr
     ⟨"Could not validate credentials", rfl⟩⟩
